import Mathlib

/-!
Shallow embedding of the FaceToEquation front-end curve mathematics
(`src/unnamed/part_000` FeatureVisualizer, `src/unnamed/part_002`
FaceEquations / EquationGraph, `src/unnamed/part_003` FaceVisualizer,
`src/code/app/components/EnhancedFaceVisualizer.js`), together with
definitions modelled from the specification for the backend fitting core
that is not present in the visible sources.  JavaScript numbers are
embedded as real numbers; JavaScript loops that accumulate into a scalar
become sums over `Finset.range`, and loops that push into an array become
`List.map` over the index range.
-/

namespace FaceToEquation

/-- Embedding of the polynomial evaluation loop shared by
`generateCurvePoints` (part_000), `generatePlotData` (part_002),
`generateEquationPoints` (part_003) and the polynomial branch of
`EquationGraph.generateGraphPoints` (part_002):
`for (j = 0; j < coefficients.length; j++) y += coefficients[j] * Math.pow(x, coefficients.length - 1 - j)`.
Coefficients are ordered highest degree first. -/
def polyEvalNaive (coefficients : List ℝ) (x : ℝ) : ℝ :=
  ∑ j ∈ Finset.range coefficients.length,
    coefficients.getD j 0 * x ^ (coefficients.length - 1 - j)

/-- Modelled from the spec: the polynomial case of `evaluate(descriptor, t)`
is a Horner sum over the coefficients, ordered highest degree first.  The
backend evaluator itself is not present in the visible sources. -/
def polyEvalHorner (coefficients : List ℝ) (x : ℝ) : ℝ :=
  coefficients.foldl (fun acc c => acc * x + c) 0

/-- Embedding of the recursive `binomial` closure inside
`evaluateBezierCurve` in `EnhancedFaceVisualizer.js`:
`if (k === 0 || k === n) return 1; if (k > n) return 0;
return binomial(n - 1, k - 1) + binomial(n - 1, k);`.
The `n = 0` case collapses the two JS tests (`k === 0 || k === 0` then
`k > 0`) into a single test on `k`; for `n + 1` the JS tests are kept
verbatim and the recursion is structural on `n`. -/
def binomialRec : ℕ → ℕ → ℕ
  | 0, k => if k = 0 then 1 else 0
  | n + 1, k =>
    if k = 0 ∨ k = n + 1 then 1
    else if n + 1 < k then 0
    else binomialRec n (k - 1) + binomialRec n k

/-- Modelled from the spec: one step of the Pascal triangle table
construction, producing row `n + 1` from row `n` by the rule
`C(n+1, k) = C(n, k-1) + C(n, k)` with implicit zero padding at both
ends. -/
def pascalNextRow (row : List ℕ) : List ℕ :=
  List.zipWith (· + ·) (0 :: row) (row ++ [0])

/-- Modelled from the spec: row `n` of the precomputed Pascal triangle
lookup table used for Bernstein basis construction (built up to the
maximum supported degree 15). -/
def pascalRow : ℕ → List ℕ
  | 0 => [1]
  | n + 1 => pascalNextRow (pascalRow n)

/-- Modelled from the spec: table lookup of the binomial coefficient
`C(n, k)` from the precomputed Pascal triangle. -/
def binomialTable (n k : ℕ) : ℕ := (pascalRow n).getD k 0

/-- Embedding of the body of the sampling loop of `evaluateBezierCurve`
(`EnhancedFaceVisualizer.js`): for one parameter value `t` it computes
`x += controlPoints[i][0] * b` and `y += controlPoints[i][1] * b` for
`i = 0 .. n` where `n = controlPoints.length - 1` and
`b = binomial(n, i) * t^i * (1-t)^(n-i)`. -/
def bezierPoint (controlPoints : List (ℝ × ℝ)) (t : ℝ) : ℝ × ℝ :=
  (∑ i ∈ Finset.range (controlPoints.length - 1 + 1),
      (controlPoints.getD i (0, 0)).1 *
        ((binomialRec (controlPoints.length - 1) i : ℝ) * t ^ i *
          (1 - t) ^ (controlPoints.length - 1 - i)),
   ∑ i ∈ Finset.range (controlPoints.length - 1 + 1),
      (controlPoints.getD i (0, 0)).2 *
        ((binomialRec (controlPoints.length - 1) i : ℝ) * t ^ i *
          (1 - t) ^ (controlPoints.length - 1 - i)))

/-- Embedding of the sampling loop of `evaluateBezierCurve`
(`EnhancedFaceVisualizer.js`):
`for (t = 0; t <= 1; t += 1/numPoints)` pushes one point per step; under
exact real arithmetic the visited parameters are `t = k / numPoints` for
`k = 0 .. numPoints`. -/
noncomputable def evaluateBezierCurve (controlPoints : List (ℝ × ℝ)) (numPoints : ℕ) :
    List (ℝ × ℝ) :=
  (List.range (numPoints + 1)).map
    (fun (k : ℕ) => bezierPoint controlPoints ((k : ℝ) / numPoints))

/-- Modelled from the spec: the bezier case of `evaluate` is a
Bernstein-weighted sum over control points including rational weights if
present; `rational_weights` is an optional parallel sequence defaulting
to 1.  With weights present this is the standard rational Bezier
quotient (weighted Bernstein sum of points over weighted Bernstein sum). -/
noncomputable def evalBezierDescriptor (controlPoints : List (ℝ × ℝ))
    (rationalWeights : Option (List ℝ)) (t : ℝ) : ℝ × ℝ :=
  let n := controlPoints.length - 1
  let w : ℕ → ℝ := fun i =>
    match rationalWeights with
    | none => 1
    | some ws => ws.getD i 1
  let b : ℕ → ℝ := fun i => (Nat.choose n i : ℝ) * t ^ i * (1 - t) ^ (n - i)
  let denom := ∑ i ∈ Finset.range (n + 1), w i * b i
  ((∑ i ∈ Finset.range (n + 1), w i * b i * (controlPoints.getD i (0, 0)).1) / denom,
   (∑ i ∈ Finset.range (n + 1), w i * b i * (controlPoints.getD i (0, 0)).2) / denom)

/-- Embedding of the `parametric_eye` point formula in
`generateFeaturePoints` (`EnhancedFaceVisualizer.js`):
`x = center[0] + a*cos(t)*cos(theta) - b*sin(t)*sin(theta)` and
`y = center[1] + a*cos(t)*sin(theta) + b*sin(t)*cos(theta)`. -/
noncomputable def parametricEyePoint (center : ℝ × ℝ) (a b theta t : ℝ) : ℝ × ℝ :=
  (center.1 + a * Real.cos t * Real.cos theta - b * Real.sin t * Real.sin theta,
   center.2 + a * Real.cos t * Real.sin theta + b * Real.sin t * Real.cos theta)

/-- Embedding of the `parametric_eye` sampling loop
`for (t = 0; t <= 2 * Math.PI; t += 0.1)`: under exact real arithmetic
the visited parameters are `t = k / 10` for `k = 0 .. 62`, since
`62 / 10 ≤ 2π < 63 / 10` (see `parametricEye_last_step` below). -/
noncomputable def parametricEyePoints (center : ℝ × ℝ) (a b theta : ℝ) : List (ℝ × ℝ) :=
  (List.range 63).map
    (fun (k : ℕ) => parametricEyePoint center a b theta ((k : ℝ) * (1 / 10)))

/-- Embedding of the trigonometric branch of
`EquationGraph.generateGraphPoints` (part_002):
`y = params[0]; for (j = 1; j < params.length; j += 2) if (j + 1 < params.length)
y += params[j] * Math.sin(j * Math.PI * x) + params[j+1] * Math.cos(j * Math.PI * x)`.
The loop counter `j` takes the odd values `2*i + 1`; the iteration count
is `params.length / 2` (Nat division), since `2*i + 1 < params.length`
iff `i < params.length / 2`. -/
noncomputable def trigEvalCode (params : List ℝ) (x : ℝ) : ℝ :=
  params.getD 0 0 +
    ∑ i ∈ Finset.range (params.length / 2),
      if 2 * i + 1 + 1 < params.length then
        params.getD (2 * i + 1) 0 * Real.sin ((2 * i + 1 : ℕ) * Real.pi * x)
          + params.getD (2 * i + 1 + 1) 0 * Real.cos ((2 * i + 1 : ℕ) * Real.pi * x)
      else 0

/-- The trigonometric evaluation stated by the claim (and by the spec
basis `trig_basis`): offset plus, for the h-th stored pair of
coefficients (0-based `h`), the pair multiplied by sin and cos of the
(h+1)-th harmonic multiple of `π*x`.  The number of complete pairs in
the parameter vector is `(params.length - 1) / 2`. -/
noncomputable def trigEvalClaim (params : List ℝ) (x : ℝ) : ℝ :=
  params.getD 0 0 +
    ∑ h ∈ Finset.range ((params.length - 1) / 2),
      (params.getD (2 * h + 1) 0 * Real.sin ((h + 1 : ℕ) * Real.pi * x)
        + params.getD (2 * h + 2) 0 * Real.cos ((h + 1 : ℕ) * Real.pi * x))

/-- Modelled from the spec: the request enum
`equation_type ∈ {polynomial, trigonometric, fourier, auto}`. -/
inductive EquationType where
  | polynomial
  | trigonometric
  | fourier
  | auto
deriving DecidableEq

/-- Modelled from the spec: the error kinds of the fitting core
(section 7 of the spec); the core itself is not present in the visible
sources. -/
inductive FitError where
  | insufficientPointsError
  | singularFitError
  | unknownEquationTypeError
  | numericInstabilityError
deriving DecidableEq

/-- The defined equation type tags accepted by the core, including the
`auto` tag which is a valid, defined request. -/
def knownEquationTypeTags : List String :=
  ["polynomial", "trigonometric", "fourier", "auto"]

/-- Modelled from the spec: processing of the incoming equation type tag,
which explicitly rejects unknown tags with `UnknownEquationTypeError`
and never silently defaults. -/
def parseEquationType (tag : String) : Except FitError EquationType :=
  if tag = "polynomial" then .ok .polynomial
  else if tag = "trigonometric" then .ok .trigonometric
  else if tag = "fourier" then .ok .fourier
  else if tag = "auto" then .ok .auto
  else .error .unknownEquationTypeError

/-- Modelled from the spec: a requested degree outside the validated
range `[1, 10]` is clamped into the range, not rejected. -/
def clampDegreeToRange (d : ℤ) : ℤ := max 1 (min d 10)

/-- Modelled from the spec: the effective polynomial fitting degree is
further clamped to `min(requested_degree, num_points - 1)`. -/
def effectiveFitDegree (d : ℤ) (numPoints : ℕ) : ℤ :=
  min (clampDegreeToRange d) ((numPoints : ℤ) - 1)

/-- Total squared residual of a coefficient vector against a point list,
using the naive front-end polynomial evaluation. -/
def squaredResidual (pts : List (ℝ × ℝ)) (cs : List ℝ) : ℝ :=
  (pts.map (fun p => (polyEvalNaive cs p.1 - p.2) ^ 2)).sum

/-- Modelled from the spec: `solve` minimizes the total squared residual,
so a degree-d polynomial least-squares fit is a coefficient vector of
length `d + 1` whose squared residual is minimal among all vectors of
that length.  The solver itself is not present in the visible sources. -/
def IsLeastSquaresPolyFit (degree : ℕ) (pts : List (ℝ × ℝ)) (cs : List ℝ) : Prop :=
  cs.length = degree + 1 ∧
    ∀ cs2 : List ℝ, cs2.length = degree + 1 →
      squaredResidual pts cs ≤ squaredResidual pts cs2

/-- A polynomial equation payload as consumed by the front-end
generators: an object with a `coefficients` array. -/
structure PolyEquation where
  coefficients : List ℝ

/-- A point pushed by the front-end generators:
`{ x, y, type: 'curve' | 'point' }`. -/
structure PlotPoint where
  x : ℝ
  y : ℝ
  type : String

/-- The JavaScript exception raised by a property access on `undefined`. -/
inductive JsError where
  | typeError
deriving DecidableEq

/-- JavaScript object-key lookup on an association list: `obj[key]` is
`undefined` when the key is missing. -/
def assocLookup {α : Type} (entries : List (String × α)) (key : String) : Option α :=
  (entries.find? (fun e => e.1 == key)).map (fun e => e.2)

/-- The `data` object consumed by the front-end visualizers:
`{ landmarks: { feature: [[x, y], ...] }, equations: { feature: {...} } }`,
each of which may be absent. -/
structure FaceData where
  landmarks : Option (List (String × List (ℝ × ℝ)))
  equations : Option (List (String × PolyEquation))

/-- Optional chaining `m?.[key]`: `undefined` when the object or the key
is missing. -/
def jsOptLookup {α : Type} (m : Option (List (String × α))) (key : String) : Option α :=
  m.bind (fun entries => assocLookup entries key)

/-- The 101 curve samples pushed by `generateCurvePoints` (part_000) and
`generatePlotData` (part_002): `x = i / 100` for `i = 0 .. 100`, with
`y` given by the naive polynomial evaluation. -/
noncomputable def curveSamplePoints (coefficients : List ℝ) : List PlotPoint :=
  (List.range 101).map (fun (i : ℕ) =>
    { x := (i : ℝ) / 100, y := polyEvalNaive coefficients ((i : ℝ) / 100),
      type := "curve" })

/-- Embedding of `generateCurvePoints` (part_000).  The guard
`if (!data?.equations?.[selectedFeature]) return []` covers a missing
`data`, a missing `equations` object and a missing feature entry; past
the guard the code evaluates the curve and then reads
`data.landmarks[selectedFeature].map(...)`, which throws a TypeError
when the landmarks object or its feature entry is absent. -/
noncomputable def generateCurvePoints (data : Option FaceData) (selectedFeature : String) :
    Except JsError (List PlotPoint) :=
  match jsOptLookup (data.bind FaceData.equations) selectedFeature with
  | none => .ok []
  | some equation =>
    match data with
    | none => .error .typeError
    | some d =>
      match jsOptLookup d.landmarks selectedFeature with
      | none => .error .typeError
      | some pts =>
        .ok (curveSamplePoints equation.coefficients
              ++ pts.map (fun p => { x := p.1, y := p.2, type := "point" }))

/-- Embedding of `generatePlotData` (part_002):
`if (!landmarks || !equations) return []` and then, after looking up the
selected feature in both, `if (!points || !equation) return []`; only
with all four present does it emit curve samples plus landmark points. -/
noncomputable def generatePlotData (landmarks : Option (List (String × List (ℝ × ℝ))))
    (equations : Option (List (String × PolyEquation)))
    (selectedFeature : String) : Except JsError (List PlotPoint) :=
  match landmarks, equations with
  | none, _ => .ok []
  | some _, none => .ok []
  | some lms, some eqs =>
    match assocLookup lms selectedFeature, assocLookup eqs selectedFeature with
    | none, _ => .ok []
    | some _, none => .ok []
    | some pts, some equation =>
      .ok (curveSamplePoints equation.coefficients
            ++ pts.map (fun p => { x := p.1, y := p.2, type := "point" }))

/-! ## Helper lemmas -/

lemma polyEvalNaive_nil (x : ℝ) : polyEvalNaive [] x = 0 := by
  simp [polyEvalNaive]

lemma polyEvalNaive_cons (c : ℝ) (cs : List ℝ) (x : ℝ) :
    polyEvalNaive (c :: cs) x = c * x ^ cs.length + polyEvalNaive cs x := by
  unfold polyEvalNaive
  rw [List.length_cons, Finset.sum_range_succ']
  have h0 : (c :: cs).getD 0 0 * x ^ (cs.length + 1 - 1 - 0) = c * x ^ cs.length := by
    simp
  have hs : ∀ j ∈ Finset.range cs.length,
      (c :: cs).getD (j + 1) 0 * x ^ (cs.length + 1 - 1 - (j + 1))
        = cs.getD j 0 * x ^ (cs.length - 1 - j) := by
    intro j _
    rw [List.getD_cons_succ]
    have he : cs.length + 1 - 1 - (j + 1) = cs.length - 1 - j := by omega
    rw [he]
  rw [Finset.sum_congr rfl hs, h0]
  ring

lemma polyEvalHorner_foldl (cs : List ℝ) (x a : ℝ) :
    cs.foldl (fun acc c => acc * x + c) a
      = a * x ^ cs.length + cs.foldl (fun acc c => acc * x + c) 0 := by
  induction cs generalizing a with
  | nil => simp
  | cons c cs ih =>
    rw [List.foldl_cons, List.foldl_cons, ih (a * x + c), ih (0 * x + c)]
    rw [List.length_cons]
    ring

lemma polyEvalHorner_cons (c : ℝ) (cs : List ℝ) (x : ℝ) :
    polyEvalHorner (c :: cs) x = c * x ^ cs.length + polyEvalHorner cs x := by
  unfold polyEvalHorner
  rw [List.foldl_cons, polyEvalHorner_foldl cs x (0 * x + c)]
  ring

/-! ## C1 -/

/-- C1: for every coefficient list ordered highest-to-lowest degree and
every abscissa, the Horner evaluation prescribed by the spec for
`evaluate` agrees with the naive power-sum evaluation
`sum_j c_j * x^(n-j)` used by the front-end curve generators. -/
theorem polynomial_horner_eq_naive (coefficients : List ℝ) (x : ℝ) :
    polyEvalHorner coefficients x = polyEvalNaive coefficients x := by
  induction coefficients with
  | nil => simp [polyEvalHorner, polyEvalNaive]
  | cons c cs ih =>
    rw [polyEvalHorner_cons, polyEvalNaive_cons, ih]

lemma binomialRec_eq_choose (n : ℕ) : ∀ k, binomialRec n k = Nat.choose n k := by
  induction n with
  | zero =>
    intro k
    cases k <;> simp [binomialRec]
  | succ n ih =>
    intro k
    cases k with
    | zero => simp [binomialRec]
    | succ k =>
      simp only [binomialRec]
      by_cases h1 : k + 1 = n + 1
      · rw [if_pos (Or.inr h1), h1, Nat.choose_self]
      · rw [if_neg (by omega : ¬(k + 1 = 0 ∨ k + 1 = n + 1))]
        by_cases h2 : n + 1 < k + 1
        · rw [if_pos h2]
          exact (Nat.choose_eq_zero_of_lt h2).symm
        · rw [if_neg h2]
          have hk : k + 1 - 1 = k := rfl
          rw [hk, ih k, ih (k + 1), Nat.choose_succ_succ]

lemma binomialTable_eq_choose : ∀ n < 16, ∀ k < n + 1, binomialTable n k = Nat.choose n k := by
  decide

/-! ## C3 -/

/-- C3: for every degree `n` up to the maximum supported degree 15 and
every `k ≤ n`, the recursive binomial rule written in the front-end
Bezier evaluator computes exactly the same value as the entry of the
precomputed Pascal triangle lookup table prescribed by the spec. -/
theorem binomial_recursive_eq_table (n k : ℕ) (hn : n ≤ 15) (hk : k ≤ n) :
    binomialRec n k = binomialTable n k := by
  rw [binomialRec_eq_choose]
  exact (binomialTable_eq_choose n (by omega) k (by omega)).symm

/-- Witness for C3 at the maximal table entry `n = 15`, `k = 7`. -/
theorem binomial_recursive_eq_table_witness :
    (15 : ℕ) ≤ 15 ∧ (7 : ℕ) ≤ 15 ∧ binomialRec 15 7 = binomialTable 15 7 :=
  ⟨by decide, by decide, binomial_recursive_eq_table 15 7 (by decide) (by decide)⟩

/-! ## C4 -/

lemma bernstein_sum_eq_one (n : ℕ) (t : ℝ) :
    ∑ i ∈ Finset.range (n + 1),
      (Nat.choose n i : ℝ) * t ^ i * (1 - t) ^ (n - i) = 1 := by
  have h := add_pow t (1 - t) n
  have h1 : t + (1 - t) = 1 := by ring
  rw [h1, one_pow] at h
  conv_rhs => rw [h]
  apply Finset.sum_congr rfl
  intro i _
  ring

lemma replicate_one_getD (m i : ℕ) : (List.replicate m (1 : ℝ)).getD i 1 = 1 := by
  rw [List.getD_eq_getElem?_getD, List.getElem?_replicate]
  split <;> rfl

/-- C4: the spec-level bezier `evaluate` with absent rational weights
behaves as with an all-ones weight vector, agrees with the front-end
Bernstein sum `bezierPoint`, and in that case equals the plain
Bernstein-weighted sum `sum_i C(n,i) * t^i * (1-t)^(n-i) * P_i`. -/
theorem bezier_descriptor_evaluation (cps : List (ℝ × ℝ)) (t : ℝ) :
    evalBezierDescriptor cps none t
        = evalBezierDescriptor cps (some (List.replicate cps.length 1)) t
    ∧ evalBezierDescriptor cps none t = bezierPoint cps t
    ∧ bezierPoint cps t
        = (∑ i ∈ Finset.range (cps.length - 1 + 1),
            (Nat.choose (cps.length - 1) i : ℝ) * t ^ i
              * (1 - t) ^ (cps.length - 1 - i) * (cps.getD i (0, 0)).1,
           ∑ i ∈ Finset.range (cps.length - 1 + 1),
            (Nat.choose (cps.length - 1) i : ℝ) * t ^ i
              * (1 - t) ^ (cps.length - 1 - i) * (cps.getD i (0, 0)).2) := by
  have hden : ∑ i ∈ Finset.range (cps.length - 1 + 1),
      (1 : ℝ) * ((Nat.choose (cps.length - 1) i : ℝ) * t ^ i
        * (1 - t) ^ (cps.length - 1 - i)) = 1 := by
    rw [Finset.sum_congr rfl (fun i _ => one_mul _)]
    exact bernstein_sum_eq_one (cps.length - 1) t
  have hnone : evalBezierDescriptor cps none t = bezierPoint cps t := by
    simp only [evalBezierDescriptor, bezierPoint, hden, div_one]
    simp only [Prod.mk.injEq]
    refine ⟨?_, ?_⟩ <;>
      · apply Finset.sum_congr rfl
        intro i _
        rw [binomialRec_eq_choose]
        ring
  refine ⟨?_, hnone, ?_⟩
  · rw [hnone]
    simp only [evalBezierDescriptor, bezierPoint]
    simp only [replicate_one_getD, hden, div_one]
    simp only [Prod.mk.injEq]
    refine ⟨?_, ?_⟩ <;>
      · apply Finset.sum_congr rfl
        intro i _
        rw [binomialRec_eq_choose]
        ring
  · simp only [bezierPoint]
    simp only [Prod.mk.injEq]
    refine ⟨?_, ?_⟩ <;>
      · apply Finset.sum_congr rfl
        intro i _
        rw [binomialRec_eq_choose]
        ring

/-! ## C7 -/

lemma binomialRec_k_zero (n : ℕ) : binomialRec n 0 = 1 := by
  cases n <;> simp [binomialRec]

lemma binomialRec_self (n : ℕ) : binomialRec n n = 1 := by
  cases n <;> simp [binomialRec]

/-- C7 counterexample: with control points equal to the landmarks
`[(0,0), (1,1), (0,0)]` (interpolating mode, degree 2), evaluating the
front-end Bezier sum at `t = 1/2`, the control-point parameter value of
the middle landmark, yields `(1/2, 1/2)` and not the landmark `(1, 1)`. -/
theorem bezier_interpolation_counterexample :
    bezierPoint [((0 : ℝ), (0 : ℝ)), (1, 1), (0, 0)] (1 / 2) = (1 / 2, 1 / 2) ∧
    ((1 / 2 : ℝ), (1 / 2 : ℝ)) ≠ (((1 : ℝ), (1 : ℝ)) : ℝ × ℝ) := by
  constructor
  · simp only [bezierPoint]
    norm_num [Finset.sum_range_succ, binomialRec]
  · intro h
    rw [Prod.mk.injEq] at h
    norm_num at h

/-- C7 amended: the Bezier curve built directly on the landmarks
reproduces the first and last landmark exactly, at the endpoint
parameter values `t = 0` and `t = 1`; interior landmarks are in general
not reproduced at their parameter values. -/
theorem bezier_endpoint_interpolation (cps : List (ℝ × ℝ)) (hne : cps ≠ []) :
    bezierPoint cps 0 = cps.getD 0 (0, 0) ∧
    bezierPoint cps 1 = cps.getD (cps.length - 1) (0, 0) := by
  constructor
  · have hx : ∀ f : ℕ → ℝ,
        ∑ i ∈ Finset.range (cps.length - 1 + 1),
          f i * ((binomialRec (cps.length - 1) i : ℝ) * (0 : ℝ) ^ i
            * (1 - 0) ^ (cps.length - 1 - i)) = f 0 := by
      intro f
      rw [Finset.sum_eq_single 0]
      · simp [binomialRec_k_zero]
      · intro i _ hi
        simp [zero_pow hi]
      · intro habs
        exact absurd (Finset.mem_range.mpr (by omega)) habs
    simp only [bezierPoint]
    rw [hx fun i => (cps.getD i (0, 0)).1, hx fun i => (cps.getD i (0, 0)).2]
  · have hy : ∀ f : ℕ → ℝ,
        ∑ i ∈ Finset.range (cps.length - 1 + 1),
          f i * ((binomialRec (cps.length - 1) i : ℝ) * (1 : ℝ) ^ i
            * (1 - 1) ^ (cps.length - 1 - i)) = f (cps.length - 1) := by
      intro f
      rw [Finset.sum_eq_single (cps.length - 1)]
      · simp [binomialRec_self]
      · intro i hi hne
        have hsub : cps.length - 1 - i ≠ 0 := by
          have := Finset.mem_range.mp hi
          omega
        simp [sub_self, zero_pow hsub]
      · intro habs
        exact absurd (Finset.mem_range.mpr (by omega)) habs
    simp only [bezierPoint]
    rw [hy fun i => (cps.getD i (0, 0)).1, hy fun i => (cps.getD i (0, 0)).2]

/-- Witness for the amended C7 at a concrete landmark list. -/
theorem bezier_endpoint_interpolation_witness :
    ([((0 : ℝ), (0 : ℝ)), (1, 1), (0, 0)] : List (ℝ × ℝ)) ≠ [] ∧
    bezierPoint [((0 : ℝ), (0 : ℝ)), (1, 1), (0, 0)] 0
        = ([((0 : ℝ), (0 : ℝ)), (1, 1), (0, 0)] : List (ℝ × ℝ)).getD 0 (0, 0) ∧
    bezierPoint [((0 : ℝ), (0 : ℝ)), (1, 1), (0, 0)] 1
        = ([((0 : ℝ), (0 : ℝ)), (1, 1), (0, 0)] : List (ℝ × ℝ)).getD
            (([((0 : ℝ), (0 : ℝ)), (1, 1), (0, 0)] : List (ℝ × ℝ)).length - 1)
            (0, 0) :=
  ⟨by simp, (bezier_endpoint_interpolation _ (by simp)).1,
    (bezier_endpoint_interpolation _ (by simp)).2⟩

/-! ## C5 -/

lemma parametricEye_last_step :
    (62 : ℝ) * (1 / 10) ≤ 2 * Real.pi ∧ 2 * Real.pi < (63 : ℝ) * (1 / 10) := by
  constructor <;> nlinarith [Real.pi_gt_d6, Real.pi_lt_d2]

/-- C5: the k-th sampled point of the `parametric_eye` branch is exactly
`(cx + a*cos(t)*cos(theta) - b*sin(t)*sin(theta),
  cy + a*cos(t)*sin(theta) + b*sin(t)*cos(theta))` at `t = k / 10`, and
every visited parameter lies in `[0, 2π)`. -/
theorem parametric_ellipse_evaluation (center : ℝ × ℝ) (a b theta : ℝ) (k : ℕ)
    (hk : k < 63) :
    (parametricEyePoints center a b theta).getD k (0, 0)
      = (center.1 + a * Real.cos ((k : ℝ) / 10) * Real.cos theta
          - b * Real.sin ((k : ℝ) / 10) * Real.sin theta,
         center.2 + a * Real.cos ((k : ℝ) / 10) * Real.sin theta
          + b * Real.sin ((k : ℝ) / 10) * Real.cos theta)
    ∧ 0 ≤ (k : ℝ) / 10 ∧ (k : ℝ) / 10 < 2 * Real.pi := by
  refine ⟨?_, by positivity, ?_⟩
  · have hmul : (k : ℝ) * (1 / 10) = (k : ℝ) / 10 := by ring
    simp only [parametricEyePoints]
    rw [List.getD_eq_getElem?_getD, List.getElem?_map, List.getElem?_range hk]
    simp only [Option.map_some', Option.getD_some, parametricEyePoint, hmul]
  · have hk62 : (k : ℝ) ≤ 62 := by
      exact_mod_cast Nat.lt_succ_iff.mp hk
    nlinarith [Real.pi_gt_d6]

/-- Witness for C5 at the sixth sample of a concrete eye descriptor. -/
theorem parametric_ellipse_evaluation_witness :
    (5 : ℕ) < 63 ∧
    ((parametricEyePoints ((1 : ℝ) / 2, (1 : ℝ) / 2) (1 / 5) (1 / 10) 0).getD 5 (0, 0)
        = ((1 : ℝ) / 2 + 1 / 5 * Real.cos (((5 : ℕ) : ℝ) / 10) * Real.cos 0
            - 1 / 10 * Real.sin (((5 : ℕ) : ℝ) / 10) * Real.sin 0,
           (1 : ℝ) / 2 + 1 / 5 * Real.cos (((5 : ℕ) : ℝ) / 10) * Real.sin 0
            + 1 / 10 * Real.sin (((5 : ℕ) : ℝ) / 10) * Real.cos 0)
      ∧ 0 ≤ ((5 : ℕ) : ℝ) / 10 ∧ ((5 : ℕ) : ℝ) / 10 < 2 * Real.pi) :=
  ⟨by decide, parametric_ellipse_evaluation ((1 : ℝ) / 2, (1 : ℝ) / 2) (1 / 5) (1 / 10) 0 5 (by decide)⟩

/-! ## C2 -/

/-- C2 (code bug): with stored parameters `[0, 0, 0, 1, 0]` (offset 0,
first harmonic pair `(0, 0)`, second harmonic pair `(1, 0)`) at
`x = 1/2`, the front-end trigonometric evaluation multiplies the second
pair by `sin(3*π*x)` (the raw array index) and yields `-1`, while the
claimed harmonic rule multiplies it by `sin(2*π*x)` and yields `0`. -/
theorem trig_harmonic_divergence :
    trigEvalCode [0, 0, 0, 1, 0] (1 / 2) = -1 ∧
    trigEvalClaim [0, 0, 0, 1, 0] (1 / 2) = 0 := by
  have h32 : Real.sin ((3 : ℝ) * Real.pi * (1 / 2)) = -1 := by
    have harg : (3 : ℝ) * Real.pi * (1 / 2) = Real.pi + Real.pi / 2 := by ring
    rw [harg, Real.sin_add, Real.sin_pi, Real.cos_pi, Real.sin_pi_div_two]
    ring
  have h22 : Real.sin ((2 : ℝ) * Real.pi * (1 / 2)) = 0 := by
    have harg : (2 : ℝ) * Real.pi * (1 / 2) = Real.pi := by ring
    rw [harg, Real.sin_pi]
  constructor
  · simp only [trigEvalCode, List.length_cons, List.length_nil]
    norm_num [Finset.sum_range_succ]
    exact h32
  · simp only [trigEvalClaim, List.length_cons, List.length_nil]
    norm_num [Finset.sum_range_succ]
    exact h22

/-! ## C6 -/

/-- C6: any equation type tag outside the defined set is rejected with
`UnknownEquationTypeError` and never silently defaulted, while the
`auto` tag is a distinct, valid request that parses successfully. -/
theorem unknown_equation_type_rejected (tag : String)
    (h : tag ∉ knownEquationTypeTags) :
    parseEquationType tag = .error .unknownEquationTypeError ∧
    parseEquationType "auto" = .ok .auto := by
  constructor
  · simp only [knownEquationTypeTags, List.mem_cons, List.not_mem_nil, or_false,
      not_or] at h
    obtain ⟨h1, h2, h3, h4⟩ := h
    simp [parseEquationType, h1, h2, h3, h4]
  · rfl

/-- Witness for C6 at the undefined tag `circle`. -/
theorem unknown_equation_type_rejected_witness :
    "circle" ∉ knownEquationTypeTags ∧
    (parseEquationType "circle" = .error .unknownEquationTypeError ∧
      parseEquationType "auto" = .ok .auto) :=
  ⟨by decide, unknown_equation_type_rejected "circle" (by decide)⟩

/-! ## C9 -/

/-- C9: a requested degree is clamped into `[1, 10]` (never rejected: the
clamp is total and an in-range degree is preserved), and the effective
polynomial fitting degree is the further clamp
`min(requested_degree, num_points - 1)`. -/
theorem degree_clamping (d : ℤ) (numPoints : ℕ) :
    1 ≤ clampDegreeToRange d ∧ clampDegreeToRange d ≤ 10 ∧
    (1 ≤ d → d ≤ 10 → clampDegreeToRange d = d) ∧
    effectiveFitDegree d numPoints
      = min (clampDegreeToRange d) ((numPoints : ℤ) - 1) := by
  refine ⟨le_max_left 1 _, max_le (by norm_num) (min_le_right d 10), ?_, rfl⟩
  intro h1 h2
  rw [clampDegreeToRange, min_eq_left h2, max_eq_right h1]

/-- Witness for C9: the out-of-range request 15 is clamped to at most 10
and the in-range request 4 is preserved. -/
theorem degree_clamping_witness :
    clampDegreeToRange 15 ≤ 10 ∧ clampDegreeToRange 4 = 4 :=
  ⟨(degree_clamping 15 4).2.1,
    (degree_clamping 4 4).2.2.1 (by norm_num) (by norm_num)⟩

/-! ## C8 -/

lemma squaredResidual_nonneg (pts : List (ℝ × ℝ)) (cs : List ℝ) :
    0 ≤ squaredResidual pts cs := by
  apply List.sum_nonneg
  intro r hr
  obtain ⟨p, _, rfl⟩ := List.mem_map.mp hr
  positivity

lemma polyEvalNaive_zero_pad (m : ℕ) (cs : List ℝ) (x : ℝ) :
    polyEvalNaive (List.replicate m 0 ++ cs) x = polyEvalNaive cs x := by
  induction m with
  | zero => simp
  | succ m ih =>
    have hrep : List.replicate (m + 1) (0 : ℝ) ++ cs
        = 0 :: (List.replicate m 0 ++ cs) := by
      simp [List.replicate_succ]
    rw [hrep, polyEvalNaive_cons, ih]
    ring

lemma squaredResidual_fit_deg_zero :
    squaredResidual [((0 : ℝ), (0 : ℝ)), (1, 0)] [0] = 0 := by
  norm_num [squaredResidual, polyEvalNaive]

lemma squaredResidual_fit_deg_one :
    squaredResidual [((0 : ℝ), (0 : ℝ)), (1, 0)] [0, 0] = 0 := by
  norm_num [squaredResidual, polyEvalNaive, Finset.sum_range_succ]

/-- C8: for a fixed point set and two polynomial least-squares fits of
degrees `d1 < d2`, both below the number of points, the total squared
residual of the higher-degree fit never exceeds that of the lower-degree
fit. -/
theorem residual_monotone_in_degree (pts : List (ℝ × ℝ)) (d1 d2 : ℕ)
    (cs1 cs2 : List ℝ) (hd : d1 < d2) (hpts : d2 < pts.length)
    (h1 : IsLeastSquaresPolyFit d1 pts cs1)
    (h2 : IsLeastSquaresPolyFit d2 pts cs2) :
    squaredResidual pts cs2 ≤ squaredResidual pts cs1 := by
  have hlen : (List.replicate (d2 - d1) (0 : ℝ) ++ cs1).length = d2 + 1 := by
    rw [List.length_append, List.length_replicate, h1.1]
    omega
  have hres : squaredResidual pts (List.replicate (d2 - d1) 0 ++ cs1)
      = squaredResidual pts cs1 := by
    unfold squaredResidual
    have hfun : (fun p : ℝ × ℝ =>
          (polyEvalNaive (List.replicate (d2 - d1) 0 ++ cs1) p.1 - p.2) ^ 2)
        = fun p : ℝ × ℝ => (polyEvalNaive cs1 p.1 - p.2) ^ 2 := by
      funext p
      rw [polyEvalNaive_zero_pad]
    rw [hfun]
  calc squaredResidual pts cs2
      ≤ squaredResidual pts (List.replicate (d2 - d1) 0 ++ cs1) := h2.2 _ hlen
    _ = squaredResidual pts cs1 := hres

/-- Witness for C8: on the two-point set `[(0,0), (1,0)]` the constant
fit `[0]` and the linear fit `[0, 0]` are both exact least-squares fits,
and the linear residual is at most the constant residual. -/
theorem residual_monotone_in_degree_witness :
    squaredResidual [((0 : ℝ), (0 : ℝ)), (1, 0)] [0, 0]
      ≤ squaredResidual [((0 : ℝ), (0 : ℝ)), (1, 0)] [0] :=
  residual_monotone_in_degree [((0 : ℝ), (0 : ℝ)), (1, 0)] 0 1 [0] [0, 0]
    (by norm_num) (by simp)
    ⟨by simp, fun cs2 hl => by
      rw [squaredResidual_fit_deg_zero]
      exact squaredResidual_nonneg _ _⟩
    ⟨by simp, fun cs2 hl => by
      rw [squaredResidual_fit_deg_one]
      exact squaredResidual_nonneg _ _⟩

/-! ## C10 -/

/-- C10 counterexample: when the equations entry for the selected
feature is present but the landmarks object is absent entirely,
`generateCurvePoints` (part_000) does not return the empty list — the
unguarded access `data.landmarks[selectedFeature].map(...)` throws a
TypeError. -/
theorem generateCurvePoints_missing_landmarks_throws :
    generateCurvePoints
      (some { landmarks := none,
              equations := some [("jawline", { coefficients := [] })] })
      "jawline" = .error .typeError := by
  rfl

/-- C10 amended: `generatePlotData` (part_002) returns the empty list,
without throwing, whenever the landmarks or equations objects are absent
or lack the selected feature; `generateCurvePoints` (part_000) returns
the empty list whenever the optional-chained equations entry is missing
(absent data, absent equations object, or missing feature entry), but it
throws a TypeError when the equations entry exists while the landmarks
object or its feature entry is absent. -/
theorem generators_missing_entries_empty
    (data : Option FaceData)
    (landmarks : Option (List (String × List (ℝ × ℝ))))
    (equations : Option (List (String × PolyEquation)))
    (feature : String)
    (hcurve : jsOptLookup (data.bind FaceData.equations) feature = none)
    (hplot : landmarks = none ∨ equations = none ∨
      jsOptLookup landmarks feature = none ∨
      jsOptLookup equations feature = none) :
    generateCurvePoints data feature = .ok [] ∧
    generatePlotData landmarks equations feature = .ok [] := by
  constructor
  · simp [generateCurvePoints, hcurve]
  · cases landmarks with
    | none => simp [generatePlotData]
    | some lms =>
      cases equations with
      | none => simp [generatePlotData]
      | some eqs =>
        rcases hplot with h | h | h | h
        · exact absurd h (by simp)
        · exact absurd h (by simp)
        · have hl : assocLookup lms feature = none := by
            simpa [jsOptLookup] using h
          simp [generatePlotData, hl]
        · have he : assocLookup eqs feature = none := by
            simpa [jsOptLookup] using h
          rcases hll : assocLookup lms feature with _ | pts
          · simp [generatePlotData, hll]
          · simp [generatePlotData, hll, he]

/-- Witness for the amended C10 with both objects absent. -/
theorem generators_missing_entries_empty_witness :
    generateCurvePoints none "jawline" = .ok [] ∧
    generatePlotData none none "jawline" = .ok [] :=
  generators_missing_entries_empty none none none "jawline" rfl (Or.inl rfl)

end FaceToEquation
